import Mathlib

/-!
Shallow embedding of the fixture/statistics join-and-metric pipeline of
src/app.py (a Streamlit dashboard over the Premier League API).

Modelling conventions:
* machine floats are exact rationals (ℚ); `round(x, n)` and pandas
  `.round(n)` round half to even on the exact value;
* Python `None`, `np.nan` and pandas `NaT` are `Option.none`;
* functions that can raise are `Except String`;
* external collaborators are parameters: the network is a list of response
  outcomes, `pd.to_datetime(errors="coerce")` is a `String → Option ℤ`
  (seconds since an epoch, `none` = NaT), and the Melbourne timezone
  conversion plus `strftime` is a `ℤ → String`.
-/

/-- Round half to even (the rounding of Python `round` and pandas
`.round`), as an integer result. -/
def roundHalfEven (q : ℚ) : ℤ :=
  let f : ℤ := ⌊q⌋
  if q - f < 1/2 then f
  else if q - f > 1/2 then f + 1
  else if f % 2 = 0 then f else f + 1

/-- `round(q, n)`: round half to even at `n` decimal places. -/
def roundTo (n : ℕ) (q : ℚ) : ℚ :=
  (roundHalfEven (q * 10 ^ n) : ℚ) / 10 ^ n

/-- The character class `[a-z0-9]` of the regex in `norm_name`
(src/app.py line 61). -/
def isAlnumLower (c : Char) : Bool :=
  (('a' ≤ c) && (c ≤ 'z')) || (('0' ≤ c) && (c ≤ '9'))

/-- `norm_name` (src/app.py lines 57-62): lowercase the input, then the
regex `[^a-z0-9]+` deletes every character outside `[a-z0-9]`.
`Char.toLower` is the ASCII case mapping of `str.lower`; a non-ASCII
letter is deleted by the filter either way.  A falsy input (empty string,
and `None` via `normOpt`) yields the empty string. -/
def norm_name (s : String) : String :=
  String.mk ((s.data.map Char.toLower).filter isAlnumLower)

/-- `norm_name` applied to an optional string (`None` is falsy, so it
yields the empty string, exactly like `norm_name ""`). -/
def normOpt (s : Option String) : String :=
  norm_name (s.getD "")

/-- The outcome of one network attempt as seen inside `http_get`: either
a network-level exception from `requests.get`, or an HTTP response with a
status code and a body.  `json = none` models a body on which `r.json()`
raises (that call sits inside the `try`, so its failure is handled by the
`except` arm). -/
inductive HResp
  | exc
  | http (code : ℕ) (json : Option String)
deriving DecidableEq

/-- The statuses retried by `http_get` (src/app.py line 41). -/
def retryCodes : List ℕ := [429, 500, 502, 503, 504]

/-- `min(2 ** i, 8)`: the sleep before the next attempt (line 42/54). -/
def backoff (i : ℕ) : ℕ := min (2 ^ i) 8

/-- The retry loop of `http_get` (src/app.py lines 36-55), driven by the
outcomes the network delivers on successive attempts; `i` is the index of
`for i in range(5)`.  Result: the parsed body (`none` is the empty dict
`{}` returned on terminal failure) paired with the sleeps performed, in
order.  An exhausted outcome list is treated as no further response.
Note that a retryable status on the last attempt (`i = 4`) still sleeps
before the loop exits and line 55 returns `{}`, while an exception on the
last attempt returns `{}` without sleeping. -/
def httpGo : List HResp → ℕ → Option String × List ℕ
  | [], _ => (none, [])
  | r :: rest, i =>
    match r with
    | .exc =>
      if i = 4 then (none, [])
      else
        let p := httpGo rest (i + 1)
        (p.1, backoff i :: p.2)
    | .http c j =>
      if c = 200 then
        match j with
        | some b => (some b, [])
        | none =>
          if i = 4 then (none, [])
          else
            let p := httpGo rest (i + 1)
            (p.1, backoff i :: p.2)
      else if c ∈ retryCodes then
        if i = 4 then (none, [backoff i])
        else
          let p := httpGo rest (i + 1)
          (p.1, backoff i :: p.2)
      else (none, [])

/-- `http_get` (src/app.py lines 34-55): run the retry loop from `i = 0`. -/
def http_get (resps : List HResp) : Option String × List ℕ :=
  httpGo resps 0

/-- One entry of the stats payload `data` list: `teamMetadata.name` and
the three `stats` fields read by `fetch_stats` (missing or null values
are `none`). -/
structure RawStat where
  name : Option String
  sot : Option ℚ
  cin : Option ℚ
  cout : Option ℚ
deriving DecidableEq

/-- `float(s.get(k, 0) or 0)`: a missing / `None` value becomes `0`
(`or 0` also maps an explicit `0` to `0`, which is the identity here). -/
def orZero (o : Option ℚ) : ℚ := o.getD 0

/-- One row of the stats frame built by `fetch_stats`: columns `team`,
`team_norm`, `metric` and `metric_%` (here `pct`). -/
structure StatRow where
  team : Option String
  team_norm : String
  metric : Option ℚ
  pct : Option ℚ
deriving DecidableEq

/-- The per-team row construction of `fetch_stats` (src/app.py lines
74-88): `metric = sot / (sot + cin + cout)` when the denominator is
positive, `np.nan` (`none`) otherwise; `metric_%` is `None` when the
metric is NaN, else `round(metric * 100, 2)`. -/
def mkStatRow (r : RawStat) : StatRow :=
  let sot := orZero r.sot
  let cin := orZero r.cin
  let cout := orZero r.cout
  let denom := sot + cin + cout
  let metric : Option ℚ := if denom > 0 then some (sot / denom) else none
  { team := r.name
    team_norm := normOpt r.name
    metric := metric
    pct := metric.map (fun m => roundTo 2 (m * 100)) }

/-- `drop_duplicates(subset=["team_norm"], keep="first")`: keep the first
row for each key, preserving arrival order; `seen` holds the keys already
kept. -/
def dedupFirst : List StatRow → List String → List StatRow
  | [], _ => []
  | r :: rs, seen =>
    if r.team_norm ∈ seen then dedupFirst rs seen
    else r :: dedupFirst rs (r.team_norm :: seen)

/-- `fetch_stats` after the HTTP fetch (src/app.py lines 70-93).
`payload = none` models a falsy payload (`{}` from a failed fetch), which
returns an empty frame; otherwise the `data` list is mapped to rows.
`dropna(subset=["team_norm"])` is the identity here: `team_norm` is
always a string produced by `norm_name` (never NaN/None), so no row is
ever dropped by it; only `drop_duplicates` acts. -/
def fetch_stats (payload : Option (List RawStat)) : List StatRow :=
  match payload with
  | none => []
  | some data => dedupFirst (data.map mkStatRow) []

/-- One entry of the matches payload `data` list, with the fields read by
`fetch_matches`; `score = none` models a falsy `m.get("score")` (absent,
null or empty object). -/
structure RawMatch where
  matchId : Option ℕ
  matchWeek : Option ℤ
  period : Option String
  kickoff : Option String
  ground : Option String
  homeName : Option String
  awayName : Option String
  score : Option (Option ℤ × Option ℤ)
deriving DecidableEq

/-- One row of the fixtures frame built by `fetch_matches`
(src/app.py lines 123-135). -/
structure Fixture where
  matchId : Option ℕ
  matchWeek : Option ℤ
  period : Option String
  kickoff : Option String
  ground : Option String
  homeTeam : Option String
  awayTeam : Option String
  homeScore : Option ℤ
  awayScore : Option ℤ
  home_norm : String
  away_norm : String
deriving DecidableEq

/-- The row construction of `fetch_matches`: scores are populated only
when the raw `score` object is truthy; the normalized keys come from
`norm_name` on the (optional) team names. -/
def mkFixtureRow (m : RawMatch) : Fixture :=
  { matchId := m.matchId
    matchWeek := m.matchWeek
    period := m.period
    kickoff := m.kickoff
    ground := m.ground
    homeTeam := m.homeName
    awayTeam := m.awayName
    homeScore := m.score.bind Prod.fst
    awayScore := m.score.bind Prod.snd
    home_norm := normOpt m.homeName
    away_norm := normOpt m.awayName }

/-- One server answer to a page request of `fetch_matches`: `empty` is a
falsy payload (`{}` from `http_get` on failure), otherwise the page's
`data` list together with `pagination._next`. -/
inductive PageResp
  | empty
  | page (data : List RawMatch) (next : Option String)

/-- `if not nxt:` — both a missing `_next` and an empty-string cursor are
falsy and stop the pagination loop. -/
def falsyNext (n : Option String) : Bool :=
  n.isNone || n == some ""

/-- The pagination loop of `fetch_matches` (src/app.py lines 101-109),
driven by the sequence of payloads the server would deliver to the
successive requests.  A falsy payload breaks the loop keeping the items
accumulated so far; a falsy `_next` breaks after extending; an exhausted
sequence is modelled like a failed fetch. -/
def paginate : List PageResp → List RawMatch
  | [] => []
  | .empty :: _ => []
  | .page d n :: rest => if falsyNext n then d else d ++ paginate rest

/-- `na_position="last"` key for an optional value: `none` sorts after
every `some`, encoded as the lexicographic pair (isNone, value). -/
def okeyZ (o : Option ℤ) : Bool ×ₗ ℤ := toLex (o.isNone, o.getD 0)

/-- Same as `okeyZ` for the `matchId` column. -/
def okeyN (o : Option ℕ) : Bool ×ₗ ℕ := toLex (o.isNone, o.getD 0)

/-- The composite sort key of
`df.sort_values(["kickoff_dt", "matchWeek", "matchId"], na_position="last")`. -/
abbrev FixKey := (Bool ×ₗ ℤ) ×ₗ (Bool ×ₗ ℤ) ×ₗ (Bool ×ₗ ℕ)

/-- The key of a fixture row under a kickoff parser `parse` (the model of
`pd.to_datetime(errors="coerce", utc=True)`, `none` = NaT). -/
def fixKey (parse : String → Option ℤ) (r : Fixture) : FixKey :=
  toLex (okeyZ (r.kickoff.bind parse), toLex (okeyZ r.matchWeek, okeyN r.matchId))

/-- The sort order of `fetch_matches`: kickoff ascending with NaT last,
then matchWeek, then matchId, each with nulls last. -/
def fixLE (parse : String → Option ℤ) (a b : Fixture) : Prop :=
  fixKey parse a ≤ fixKey parse b

instance (parse : String → Option ℤ) : DecidableRel (fixLE parse) :=
  fun a b => inferInstanceAs (Decidable (fixKey parse a ≤ fixKey parse b))

instance (parse : String → Option ℤ) : IsTotal Fixture (fixLE parse) :=
  ⟨fun a b => le_total (fixKey parse a) (fixKey parse b)⟩

instance (parse : String → Option ℤ) : IsTrans Fixture (fixLE parse) :=
  ⟨fun _ _ _ h1 h2 => le_trans h1 h2⟩

/-- The row-building and sorting tail of `fetch_matches` (src/app.py
lines 111-141), applied to the accumulated raw items: parse kickoffs
(failures coerce to NaT) and sort with nulls last. -/
def fetch_matches_post (parse : String → Option ℤ) (items : List RawMatch) : List Fixture :=
  List.insertionSort (fixLE parse) (items.map mkFixtureRow)

/-- `fetch_matches` (src/app.py lines 96-141): paginate, then build rows
and sort. -/
def fetch_matches (parse : String → Option ℤ) (pages : List PageResp) : List Fixture :=
  fetch_matches_post parse (paginate pages)

/-- A fixture row after `convert_to_melbourne_time`: the original columns
plus `kickoff_utc`, `kickoff_utc_corrected` and `kickoff_formatted`. -/
structure FixtureM where
  base : Fixture
  kickoff_utc : Option ℤ
  kickoff_utc_corrected : Option ℤ
  kickoff_formatted : Option String
deriving DecidableEq

/-- `convert_to_melbourne_time` (src/app.py lines 143-157): parse the
kickoff (coercing failures to NaT), subtract one hour (3600 seconds),
then convert to Australia/Melbourne and format.  `fmt` models
`tz_convert` plus `strftime` (the timezone database is an external
collaborator); NaT propagates through the subtraction and formats to a
missing value. -/
def convert_to_melbourne_time (parse : String → Option ℤ) (fmt : ℤ → String)
    (rows : List Fixture) : List FixtureM :=
  rows.map (fun r =>
    let u := r.kickoff.bind parse
    let corrected := u.map (fun t => t - 3600)
    { base := r
      kickoff_utc := u
      kickoff_utc_corrected := corrected
      kickoff_formatted := corrected.map fmt })

/-- `dict(zip(keys, values))` followed by `Series.map`: the last write
for a key wins, a missing key maps to NaN; a stored NaN value (`none`)
also surfaces as NaN, so the result is already flat. -/
def dictLookup (pairs : List (String × Option ℚ)) (k : String) : Option ℚ :=
  match pairs.reverse.find? (fun p => p.1 == k) with
  | none => none
  | some p => p.2

/-- One row of the schedule frame built by `build_schedule_with_metrics`:
the fixture columns plus `Home Team %` / `Away Team %` (here `homePct` /
`awayPct`), the two metric columns, and `xGDiff`. -/
structure ScheduleRow where
  fixture : Fixture
  homePct : Option ℚ
  awayPct : Option ℚ
  home_metric : Option ℚ
  away_metric : Option ℚ
  xGDiff : Option ℚ
deriving DecidableEq

/-- `build_schedule_with_metrics` (src/app.py lines 282-308).  The
`.error` result models the `KeyError` raised by `stats_df["team_norm"]`
on line 291 when the stats frame is empty: the empty frame produced by a
failed `fetch_stats` has no columns at all.  A nonempty `matches_df`
coming from `fetch_matches` always has its columns, so the
`"period" in matches_df.columns` test on line 287 is true there.
`xGDiff = home_metric * 5.0 + away_metric * (-4.6)` is NaN as soon as
either operand is NaN; the percent columns and `xGDiff` are then rounded
to 2 and 3 decimals (NaN stays NaN). -/
def build_schedule_with_metrics (stats : List StatRow) (matches_df : List Fixture)
    (prematch_only : Bool) : Except String (List ScheduleRow) :=
  if matches_df.isEmpty then .ok [] else
  let ms := if prematch_only then matches_df.filter (fun m => m.period == some "PreMatch")
            else matches_df
  if stats.isEmpty then .error "KeyError: team_norm" else
  let metricByName := stats.map (fun s => (s.team_norm, s.metric))
  let pctByName := stats.map (fun s => (s.team_norm, s.pct))
  .ok (ms.map (fun m =>
    let hm := dictLookup metricByName m.home_norm
    let am := dictLookup metricByName m.away_norm
    { fixture := m
      homePct := (dictLookup pctByName m.home_norm).map (roundTo 2)
      awayPct := (dictLookup pctByName m.away_norm).map (roundTo 2)
      home_metric := hm
      away_metric := am
      xGDiff := match hm, am with
        | some h, some a => some (roundTo 3 (h * 5 + a * (-(23/5 : ℚ))))
        | _, _ => none }))

/-- Concrete fixture used to exercise the join engine: a PreMatch fixture
whose normalized keys are "h" and "a". -/
def exFixture : Fixture :=
  { matchId := some 1
    matchWeek := some 1
    period := some "PreMatch"
    kickoff := none
    ground := none
    homeTeam := some "Home"
    awayTeam := some "Away"
    homeScore := none
    awayScore := none
    home_norm := "h"
    away_norm := "a" }

/-- `exFixture` with a parsable kickoff string. -/
def exFixtureK : Fixture :=
  { exFixture with kickoff := some "2025-08-16T20:00Z" }

/-- Concrete stats rows: home metric 1/2 (50 %), away metric 3/10 (30 %). -/
def exStats : List StatRow :=
  [{ team := some "H", team_norm := "h", metric := some (1/2), pct := some 50 },
   { team := some "A", team_norm := "a", metric := some (3/10), pct := some 30 }]

/-- The schedule row the join engine produces from `exStats` and
`exFixture`. -/
def exSchedRow : ScheduleRow :=
  { fixture := exFixture
    homePct := some 50
    awayPct := some 30
    home_metric := some (1/2)
    away_metric := some (3/10)
    xGDiff := some (28/25) }

/-- Concrete kickoff parser for the sort example: maps the two kickoff
strings of the spec example to comparable instants. -/
def exParse (s : String) : Option ℤ :=
  if s = "2025-08-16T20:00Z" then some 100
  else if s = "2025-08-20T15:00Z" then some 200
  else none

/-- Raw fixtures of the sort example: kickoffs null, 2025-08-20,
2025-08-16 (in arrival order). -/
def exItems : List RawMatch :=
  [{ matchId := some 1, matchWeek := some 1, period := some "PreMatch",
     kickoff := none, ground := none, homeName := none, awayName := none, score := none },
   { matchId := some 2, matchWeek := some 1, period := some "PreMatch",
     kickoff := some "2025-08-20T15:00Z", ground := none, homeName := none,
     awayName := none, score := none },
   { matchId := some 3, matchWeek := some 1, period := some "PreMatch",
     kickoff := some "2025-08-16T20:00Z", ground := none, homeName := none,
     awayName := none, score := none }]

/-- A raw match entry for the pagination examples. -/
def exRaw : RawMatch :=
  { matchId := some 10, matchWeek := some 1, period := none, kickoff := none,
    ground := none, homeName := none, awayName := none, score := none }

/-- A second raw match entry for the pagination examples. -/
def exRaw2 : RawMatch :=
  { exRaw with matchId := some 11 }

/-- Concrete formatter standing for the Melbourne conversion in the
witness of the time-converter claim. -/
def exFmt (t : ℤ) : String := toString t

/-- A character of the class `[a-z0-9]` is fixed by the case mapping. -/
theorem toLower_fixed (c : Char) (h : isAlnumLower c = true) : Char.toLower c = c := by
  simp only [isAlnumLower, Bool.or_eq_true, Bool.and_eq_true, decide_eq_true_eq] at h
  unfold Char.toLower
  rw [if_neg]
  intro hab
  rcases h with ⟨h1, _⟩ | ⟨_, h2⟩
  · have h1n : 97 ≤ c.toNat := h1
    omega
  · have h2n : c.toNat ≤ 57 := h2
    omega

/-- Claim C8: `norm_name` lowercases and keeps exactly the characters of
`[a-z0-9]`; it identifies "Brighton & Hove Albion" with
"brighton-hove-albion", maps the empty string to itself, is idempotent,
and every character it emits lies in `[a-z0-9]`. -/
theorem C8_norm_name :
    (∀ s, norm_name (norm_name s) = norm_name s)
  ∧ norm_name "Brighton & Hove Albion" = norm_name "brighton-hove-albion"
  ∧ norm_name "" = ""
  ∧ ∀ s, ∀ c ∈ (norm_name s).data, isAlnumLower c = true := by
  refine ⟨fun s => ?_, by decide, rfl, fun s c hc => (List.mem_filter.1 hc).2⟩
  show String.mk ((((s.data.map Char.toLower).filter isAlnumLower).map Char.toLower).filter
        isAlnumLower)
      = String.mk ((s.data.map Char.toLower).filter isAlnumLower)
  congr 1
  have hmem : ∀ c ∈ (s.data.map Char.toLower).filter isAlnumLower, isAlnumLower c = true :=
    fun c hc => (List.mem_filter.1 hc).2
  rw [List.map_congr_left (fun c hc => toLower_fixed c (hmem c hc)), List.map_id']
  exact List.filter_eq_self.2 hmem

/-- Witness for C8 at a concrete input. -/
theorem C8_norm_name_witness :
    norm_name (norm_name "Arsenal 1") = norm_name "Arsenal 1"
  ∧ isAlnumLower 'a' = true :=
  ⟨C8_norm_name.1 "Arsenal 1", C8_norm_name.2.2.2 "Arsenal 1" 'a' (by decide)⟩

/-- Every retried status differs from 200. -/
theorem retry_ne_200 {c : ℕ} (hc : c ∈ retryCodes) : c ≠ 200 := by
  simp only [retryCodes, List.mem_cons, List.not_mem_nil, or_false] at hc
  rcases hc with rfl | rfl | rfl | rfl | rfl <;> decide

/-- A retryable status before the last attempt sleeps and retries. -/
theorem httpGo_retry_cons {c : ℕ} (j : Option String) (rest : List HResp) (i : ℕ)
    (hc : c ∈ retryCodes) (hi : i < 4) :
    httpGo (HResp.http c j :: rest) i
      = ((httpGo rest (i + 1)).1, backoff i :: (httpGo rest (i + 1)).2) := by
  have h200 := retry_ne_200 hc
  have h4 : i ≠ 4 := by omega
  simp [httpGo, h200, hc, h4]

/-- A 200 response with a parsable body returns it at any attempt. -/
theorem httpGo_200 (rest : List HResp) (b : String) (i : ℕ) :
    httpGo (HResp.http 200 (some b) :: rest) i = (some b, []) := by
  simp [httpGo]

/-- A run of retryable statuses that stays within the attempt budget
accumulates one backoff sleep per status and continues the loop. -/
theorem httpGo_retry_run : ∀ (cs : List ℕ) (i : ℕ) (rest : List HResp),
    (∀ c ∈ cs, c ∈ retryCodes) → i + cs.length ≤ 4 →
    httpGo (cs.map (fun c => HResp.http c none) ++ rest) i
      = ((httpGo rest (i + cs.length)).1,
         (List.range cs.length).map (fun k => backoff (i + k)) ++ (httpGo rest (i + cs.length)).2)
  | [], i, rest, _, _ => by simp
  | c :: cs, i, rest, hcs, hlen => by
    have hc : c ∈ retryCodes := hcs c (by simp)
    have hi : i < 4 := by simp only [List.length_cons] at hlen; omega
    rw [List.map_cons, List.cons_append, httpGo_retry_cons none _ i hc hi,
        httpGo_retry_run cs (i + 1) rest (fun d hd => hcs d (by simp [hd]))
          (by simp only [List.length_cons] at hlen ⊢; omega)]
    have he : i + 1 + cs.length = i + (cs.length + 1) := by omega
    have harg : (fun k => backoff (i + 1 + k)) = fun k => backoff (i + (k + 1)) := by
      funext k; congr 1; omega
    rw [he, harg]
    simp [List.range_succ_eq_map, List.map_map, Function.comp_def]

/-- A run of five retryable statuses exhausts the budget: five sleeps
(the last attempt still sleeps before the loop exits) and an empty
result. -/
theorem httpGo_retry_exhaust : ∀ (cs : List ℕ) (i : ℕ) (rest : List HResp),
    cs ≠ [] → (∀ c ∈ cs, c ∈ retryCodes) → i + cs.length = 5 →
    httpGo (cs.map (fun c => HResp.http c none) ++ rest) i
      = (none, (List.range cs.length).map (fun k => backoff (i + k)))
  | [], _, _, hne, _, _ => absurd rfl hne
  | c :: cs, i, rest, _, hcs, hlen => by
    have hc : c ∈ retryCodes := hcs c (by simp)
    have h200 := retry_ne_200 hc
    by_cases hnil : cs = []
    · subst hnil
      have hi : i = 4 := by simp only [List.length_cons, List.length_nil] at hlen; omega
      subst hi
      simp [httpGo, h200, hc, List.range_succ]
    · have hi : i < 4 := by
        have hpos : 0 < cs.length := List.length_pos.2 hnil
        simp only [List.length_cons] at hlen; omega
      rw [List.map_cons, List.cons_append, httpGo_retry_cons none _ i hc hi,
          httpGo_retry_exhaust cs (i + 1) rest hnil (fun d hd => hcs d (by simp [hd]))
            (by simp only [List.length_cons] at hlen ⊢; omega)]
      have he : i + 1 + cs.length = i + (cs.length + 1) := by omega
      have harg : (fun k => backoff (i + 1 + k)) = fun k => backoff (i + (k + 1)) := by
        funext k; congr 1; omega
      rw [harg]
      simp [List.range_succ_eq_map, List.map_map, Function.comp_def]

/-- An exception before the last attempt sleeps and retries. -/
theorem httpGo_exc_cons (rest : List HResp) (i : ℕ) (hi : i < 4) :
    httpGo (HResp.exc :: rest) i
      = ((httpGo rest (i + 1)).1, backoff i :: (httpGo rest (i + 1)).2) := by
  have h4 : i ≠ 4 := by omega
  simp [httpGo, h4]

/-- An exception on the last attempt reports and returns empty, without
sleeping. -/
theorem httpGo_exc_last (rest : List HResp) :
    httpGo (HResp.exc :: rest) 4 = (none, []) := rfl

/-- A run of exceptions that stays within the attempt budget accumulates
one backoff sleep per exception and continues the loop. -/
theorem httpGo_exc_run : ∀ (n i : ℕ) (rest : List HResp), i + n ≤ 4 →
    httpGo (List.replicate n HResp.exc ++ rest) i
      = ((httpGo rest (i + n)).1,
         (List.range n).map (fun k => backoff (i + k)) ++ (httpGo rest (i + n)).2)
  | 0, i, rest, _ => by simp
  | n + 1, i, rest, h => by
    have hi : i < 4 := by omega
    rw [List.replicate_succ, List.cons_append, httpGo_exc_cons _ i hi,
        httpGo_exc_run n (i + 1) rest (by omega)]
    have he : i + 1 + n = i + (n + 1) := by omega
    have harg : (fun k => backoff (i + 1 + k)) = fun k => backoff (i + (k + 1)) := by
      funext k; congr 1; omega
    rw [he, harg]
    simp [List.range_succ_eq_map, List.map_map, Function.comp_def]

/-- Claim C3 counterexample: 501 is a 5xx status, yet `http_get` does not
retry it — the response sequence [501, 200] yields the empty result with
no delay, not the 200 body after one 1-second delay that the claim
predicts for a retried 5xx. -/
theorem C3_counterexample :
    (500 ≤ 501 ∧ 501 < 600)
  ∧ http_get [HResp.http 501 none, HResp.http 200 (some "ok")] = (none, [])
  ∧ ((none, []) : Option String × List ℕ) ≠ (some "ok", [1]) := by
  refine ⟨by decide, rfl, by decide⟩

/-- Claim C3 (amended): `http_get` retries exactly on the statuses 429,
500, 502, 503 and 504, sleeping `min(2^attempt, 8)` seconds between
attempts, capped at 5 total attempts (after five retryable statuses it
returns empty, the fifth still sleeping before the loop exits); a 200
returns the parsed body; any other non-200 status returns the empty
result at once; [500, 500, 200] yields the 200 body after delays 1s, 2s. -/
theorem C3_amended :
    (∀ b : String,
        http_get [HResp.http 500 none, HResp.http 500 none, HResp.http 200 (some b)]
          = (some b, [1, 2]))
  ∧ (∀ (cs : List ℕ) (b : String) (rest : List HResp),
        (∀ c ∈ cs, c ∈ retryCodes) → cs.length ≤ 4 →
        http_get (cs.map (fun c => HResp.http c none) ++ HResp.http 200 (some b) :: rest)
          = (some b, (List.range cs.length).map backoff))
  ∧ (∀ (cs : List ℕ) (rest : List HResp),
        cs ≠ [] → (∀ c ∈ cs, c ∈ retryCodes) → cs.length = 5 →
        http_get (cs.map (fun c => HResp.http c none) ++ rest)
          = (none, [1, 2, 4, 8, 8]))
  ∧ (∀ (c : ℕ) (j : Option String) (rest : List HResp),
        c ≠ 200 → c ∉ retryCodes →
        http_get (HResp.http c j :: rest) = (none, [])) := by
  refine ⟨fun b => rfl, ?_, ?_, ?_⟩
  · intro cs b rest hcs hlen
    unfold http_get
    rw [httpGo_retry_run cs 0 _ hcs (by omega), httpGo_200]
    simp
  · intro cs rest hne hcs hlen
    unfold http_get
    rw [httpGo_retry_exhaust cs 0 rest hne hcs (by omega), hlen]
    simp only [Nat.zero_add]
    rfl
  · intro c j rest h200 hretry
    simp [http_get, httpGo, h200, hretry]

/-- Witness for C3 (amended) at concrete inputs. -/
theorem C3_amended_witness :
    http_get [HResp.http 500 none, HResp.http 500 none, HResp.http 200 (some "ok")]
      = (some "ok", [1, 2])
  ∧ http_get ([429].map (fun c => HResp.http c none) ++ HResp.http 200 (some "ok") :: [])
      = (some "ok", (List.range (List.length [429])).map backoff)
  ∧ http_get ([500, 502, 503, 504, 429].map (fun c => HResp.http c none) ++ [])
      = (none, [1, 2, 4, 8, 8])
  ∧ http_get (HResp.http 404 none :: []) = (none, []) :=
  ⟨C3_amended.1 "ok",
   C3_amended.2.1 [429] "ok" [] (by decide) (by decide),
   C3_amended.2.2.1 [500, 502, 503, 504, 429] [] (by decide) (by decide) (by decide),
   C3_amended.2.2.2 404 none [] (by decide) (by decide)⟩

/-- Claim C10: a network-level exception is retried inside the same
five-attempt budget: each exception before the fifth attempt costs one
backoff sleep and a retry (so up to four exceptions still let a later 200
succeed, with delays 1, 2, 4, 8 truncated to the number of exceptions),
while a fifth consecutive exception is reported and yields the empty
result — with only the four earlier sleeps. -/
theorem C10_exception_retry :
    (∀ (n : ℕ) (b : String) (rest : List HResp), n ≤ 4 →
        http_get (List.replicate n HResp.exc ++ HResp.http 200 (some b) :: rest)
          = (some b, (List.range n).map backoff))
  ∧ (∀ rest : List HResp,
        http_get (List.replicate 5 HResp.exc ++ rest) = (none, [1, 2, 4, 8])) := by
  constructor
  · intro n b rest hn
    unfold http_get
    rw [httpGo_exc_run n 0 _ (by omega), httpGo_200]
    simp
  · intro rest
    unfold http_get
    have h5 : List.replicate 5 HResp.exc ++ rest
        = List.replicate 4 HResp.exc ++ (HResp.exc :: rest) := by
      simp [List.replicate_succ, List.replicate]
    rw [h5, httpGo_exc_run 4 0 _ (by omega), httpGo_exc_last]
    rfl

/-- Witness for C10 at concrete inputs. -/
theorem C10_exception_retry_witness :
    http_get (List.replicate 2 HResp.exc ++ HResp.http 200 (some "ok") :: [])
      = (some "ok", (List.range 2).map backoff)
  ∧ http_get (List.replicate 5 HResp.exc ++ []) = (none, [1, 2, 4, 8]) :=
  ⟨C10_exception_retry.1 2 "ok" [] (by decide), C10_exception_retry.2 []⟩

/-- `roundHalfEven` is the identity on integers. -/
theorem roundHalfEven_int (z : ℤ) : roundHalfEven (z : ℚ) = z := by
  simp only [roundHalfEven, Int.floor_intCast, sub_self]
  norm_num

/-- Evaluate `roundTo` when the scaled value is an exact integer. -/
theorem roundTo_int (n : ℕ) (q : ℚ) (z : ℤ) (h : q * 10 ^ n = (z : ℚ)) :
    roundTo n q = (z : ℚ) / 10 ^ n := by
  unfold roundTo
  rw [h, roundHalfEven_int]

/-- `roundHalfEven` rounds up when the fractional part exceeds 1/2. -/
theorem roundHalfEven_up (q : ℚ) (f : ℤ) (hle : (f : ℚ) ≤ q) (hlt : q < f + 1)
    (hfrac : 1/2 < q - f) : roundHalfEven q = f + 1 := by
  have hfloor : ⌊q⌋ = f := by
    rw [Int.floor_eq_iff]
    exact ⟨hle, hlt⟩
  simp only [roundHalfEven, hfloor]
  rw [if_neg (by linarith), if_pos hfrac]

/-- Evaluate `roundTo` when the scaled value rounds up. -/
theorem roundTo_up (n : ℕ) (q : ℚ) (f : ℤ) (hle : (f : ℚ) ≤ q * 10 ^ n)
    (hlt : q * 10 ^ n < f + 1) (hfrac : 1/2 < q * 10 ^ n - f) :
    roundTo n q = ((f : ℚ) + 1) / 10 ^ n := by
  unfold roundTo
  rw [roundHalfEven_up _ f hle hlt hfrac]
  push_cast
  ring

/-- The join of `exStats` with `exFixture` evaluates to `exSchedRow`. -/
theorem build_ex_eval :
    build_schedule_with_metrics exStats [exFixture] true = .ok [exSchedRow] := by
  have h50 : roundTo 2 (50 : ℚ) = 50 := by
    rw [roundTo_int 2 50 5000 (by norm_num)]
    norm_num
  have h30 : roundTo 2 (30 : ℚ) = 30 := by
    rw [roundTo_int 2 30 3000 (by norm_num)]
    norm_num
  simp [build_schedule_with_metrics, exStats, exFixture, exSchedRow, dictLookup,
    h50, h30]
  rw [roundTo_int 3 _ 1120 (by norm_num)]
  norm_num

/-- Claim C1: every row produced by `build_schedule_with_metrics`
carries `xGDiff = round3(home_metric * 5.0 + away_metric * (-4.6))`
exactly when both metrics resolve through the normalized-key lookup
(`dictLookup` is `none` when the key is absent or the stored metric is
NaN), and an undefined (NaN) `xGDiff` otherwise; home metric 1/2 and
away metric 3/10 yield 28/25 = 1.12. -/
theorem C1_xgdiff (stats : List StatRow) (matches_df : List Fixture) (b : Bool)
    (out : List ScheduleRow)
    (hout : build_schedule_with_metrics stats matches_df b = .ok out) :
    (∀ row ∈ out,
        row.xGDiff =
          match dictLookup (stats.map (fun s => (s.team_norm, s.metric))) row.fixture.home_norm,
                dictLookup (stats.map (fun s => (s.team_norm, s.metric))) row.fixture.away_norm with
          | some h, some a => some (roundTo 3 (h * 5 + a * (-(23/5 : ℚ))))
          | _, _ => none)
    ∧ roundTo 3 ((1/2 : ℚ) * 5 + (3/10 : ℚ) * (-(23/5 : ℚ))) = 28/25 := by
  constructor
  · intro row hrow
    by_cases hm : matches_df.isEmpty
    · simp [build_schedule_with_metrics, hm] at hout
      subst hout
      simp at hrow
    · by_cases hs : stats.isEmpty
      · simp [build_schedule_with_metrics, hm, hs] at hout
      · simp only [build_schedule_with_metrics, hm, hs, Bool.false_eq_true, if_false,
          if_true, Except.ok.injEq] at hout
        subst hout
        obtain ⟨m, hmem, rfl⟩ := List.mem_map.1 hrow
        rfl
  · rw [roundTo_int 3 _ 1120 (by norm_num)]
    norm_num

/-- Witness for C1 at a concrete join. -/
theorem C1_xgdiff_witness :
    (∀ row ∈ [exSchedRow],
        row.xGDiff =
          match dictLookup (exStats.map (fun s => (s.team_norm, s.metric))) row.fixture.home_norm,
                dictLookup (exStats.map (fun s => (s.team_norm, s.metric))) row.fixture.away_norm with
          | some h, some a => some (roundTo 3 (h * 5 + a * (-(23/5 : ℚ))))
          | _, _ => none)
    ∧ roundTo 3 ((1/2 : ℚ) * 5 + (3/10 : ℚ) * (-(23/5 : ℚ))) = 28/25 :=
  C1_xgdiff exStats [exFixture] true [exSchedRow] build_ex_eval

/-- Claim C2 counterexample: the empty stats frame a failed stats fetch
produces makes the join engine raise (the empty `pd.DataFrame()` has no
`team_norm` column), instead of returning a well-typed result, as soon as
the fixture collection is nonempty. -/
theorem C2_counterexample :
    build_schedule_with_metrics [] [exFixture] true = .error "KeyError: team_norm" := rfl

/-- Claim C2 (amended): with the empty stats frame a failed stats fetch
produces, `build_schedule_with_metrics` returns the empty well-typed
result only when the fixture collection is itself empty; for a nonempty
fixture collection it raises a `KeyError` on `stats_df["team_norm"]`.
(The app avoids the raise by returning early when stats are empty, and
its top level catches residual exceptions.) -/
theorem C2_amended (matches_df : List Fixture) (b : Bool) :
    build_schedule_with_metrics [] matches_df b
      = if matches_df.isEmpty then .ok [] else .error "KeyError: team_norm" := by
  by_cases hm : matches_df.isEmpty <;> simp [build_schedule_with_metrics, hm]

/-- Claim C4: `fetch_matches` keeps every accumulated row (unparsable
kickoffs merely become null) and returns them sorted by kickoff
ascending with null kickoffs last, then matchWeek, then matchId (each
with nulls last); the kickoffs [null, 2025-08-20, 2025-08-16] come out
as [2025-08-16, 2025-08-20, null]. -/
theorem C4_sort :
    (∀ (parse : String → Option ℤ) (items : List RawMatch),
        (fetch_matches_post parse items).Perm (items.map mkFixtureRow)
        ∧ List.Sorted (fixLE parse) (fetch_matches_post parse items))
    ∧ (fetch_matches_post exParse exItems).map Fixture.kickoff
        = [some "2025-08-16T20:00Z", some "2025-08-20T15:00Z", none] := by
  refine ⟨fun parse items =>
    ⟨List.perm_insertionSort (fixLE parse) (items.map mkFixtureRow),
     List.sorted_insertionSort (fixLE parse) (items.map mkFixtureRow)⟩, ?_⟩
  decide

/-- Claim C5: the pagination loop stops exactly on a falsy `_next`
cursor or a falsy payload, whichever comes first; a falsy intermediate
payload keeps the rows accumulated so far; a response with no `_next`
stops after one page. -/
theorem C5_pagination :
    (∀ (d : List RawMatch) (n : Option String) (rest : List PageResp),
        falsyNext n = true → paginate (PageResp.page d n :: rest) = d)
  ∧ (∀ (d : List RawMatch) (n : String) (rest : List PageResp),
        n ≠ "" → paginate (PageResp.page d (some n) :: rest) = d ++ paginate rest)
  ∧ (∀ (d : List RawMatch) (n : String) (rest : List PageResp),
        n ≠ "" → paginate (PageResp.page d (some n) :: PageResp.empty :: rest) = d)
  ∧ (∀ (d : List RawMatch) (rest : List PageResp),
        paginate (PageResp.page d none :: rest) = d) := by
  have hfal : ∀ n : String, n ≠ "" → falsyNext (some n) = false := by
    intro n hn
    simp [falsyNext, hn]
  refine ⟨?_, ?_, ?_, ?_⟩
  · intro d n rest h
    simp [paginate, h]
  · intro d n rest h
    simp [paginate, hfal n h]
  · intro d n rest h
    simp [paginate, hfal n h]
  · intro d rest
    simp [paginate, falsyNext]

/-- Witness for C5 at concrete inputs. -/
theorem C5_pagination_witness :
    paginate [PageResp.page [exRaw] none] = [exRaw]
  ∧ paginate [PageResp.page [exRaw] (some "cur"), PageResp.page [exRaw2] none]
      = [exRaw] ++ paginate [PageResp.page [exRaw2] none]
  ∧ paginate [PageResp.page [exRaw] (some "cur"), PageResp.empty] = [exRaw]
  ∧ paginate [PageResp.page [exRaw] none, PageResp.page [exRaw2] none] = [exRaw] :=
  ⟨C5_pagination.1 [exRaw] none [] (by decide),
   C5_pagination.2.1 [exRaw] "cur" [PageResp.page [exRaw2] none] (by decide),
   C5_pagination.2.2.1 [exRaw] "cur" [] (by decide),
   C5_pagination.2.2.2 [exRaw] [PageResp.page [exRaw2] none]⟩

/-- Claim C6: the per-team metric equals shots-on-target divided by
(shots-on-target + conceded-inside + conceded-outside); it lies in [0, 1]
for non-negative inputs with non-zero denominator, is undefined when the
denominator is zero; inputs 10, 5, 5 give 1/2 with percent 50, and
all-zero inputs give an undefined metric. -/
theorem C6_metric :
    (∀ r : RawStat,
        0 ≤ orZero r.sot → 0 ≤ orZero r.cin → 0 ≤ orZero r.cout →
        orZero r.sot + orZero r.cin + orZero r.cout ≠ 0 →
        (mkStatRow r).metric
            = some (orZero r.sot / (orZero r.sot + orZero r.cin + orZero r.cout))
          ∧ 0 ≤ orZero r.sot / (orZero r.sot + orZero r.cin + orZero r.cout)
          ∧ orZero r.sot / (orZero r.sot + orZero r.cin + orZero r.cout) ≤ 1)
  ∧ (∀ r : RawStat, orZero r.sot + orZero r.cin + orZero r.cout = 0 →
        (mkStatRow r).metric = none)
  ∧ (mkStatRow ⟨some "T", some 10, some 5, some 5⟩).metric = some (1/2)
  ∧ (mkStatRow ⟨some "T", some 10, some 5, some 5⟩).pct = some 50
  ∧ (mkStatRow ⟨some "Z", some 0, some 0, some 0⟩).metric = none := by
  refine ⟨?_, ?_, ?_, ?_, ?_⟩
  · intro r h1 h2 h3 h4
    have hpos : 0 < orZero r.sot + orZero r.cin + orZero r.cout :=
      lt_of_le_of_ne (add_nonneg (add_nonneg h1 h2) h3) (Ne.symm h4)
    refine ⟨by simp [mkStatRow, hpos], div_nonneg h1 hpos.le, ?_⟩
    rw [div_le_one hpos]
    linarith
  · intro r h
    simp [mkStatRow, h]
  · norm_num [mkStatRow, orZero]
  · norm_num [mkStatRow, orZero]
    rw [roundTo_int 2 _ 5000 (by norm_num)]
    norm_num
  · norm_num [mkStatRow, orZero]

/-- Witness for C6 at concrete inputs. -/
theorem C6_metric_witness :
    ((mkStatRow ⟨some "T", some 10, some 5, some 5⟩).metric
        = some (orZero (some 10) / (orZero (some 10) + orZero (some 5) + orZero (some 5)))
      ∧ 0 ≤ orZero (some 10) / (orZero (some 10) + orZero (some 5) + orZero (some 5))
      ∧ orZero (some 10) / (orZero (some 10) + orZero (some 5) + orZero (some 5)) ≤ 1)
  ∧ (mkStatRow ⟨some "W", none, none, none⟩).metric = none :=
  ⟨C6_metric.1 ⟨some "T", some 10, some 5, some 5⟩ (by norm_num [orZero])
      (by norm_num [orZero]) (by norm_num [orZero]) (by norm_num [orZero]),
   C6_metric.2.1 ⟨some "W", none, none, none⟩ (by norm_num [orZero])⟩

/-- Claim C7, failing input: a stats payload whose single row has a null
team name.  The claim (and spec) says rows whose name normalizes to the
empty string are dropped, but `dropna(subset=["team_norm"])` only removes
null values and `norm_name` always returns a string, so the row survives
with the empty `team_key`. -/
theorem C7_empty_key_survives :
    fetch_stats (some [⟨none, some 1, some 2, some 3⟩])
      = [{ team := none, team_norm := "", metric := some (1/6), pct := some (1667/100) }] := by
  have hrow : mkStatRow ⟨none, some 1, some 2, some 3⟩
      = { team := none, team_norm := "", metric := some (1/6), pct := some (1667/100) } := by
    have hn : normOpt (none : Option String) = "" := rfl
    norm_num [mkStatRow, orZero, hn]
    rw [roundTo_up 2 _ 1666 (by norm_num) (by norm_num) (by norm_num)]
    norm_num
  simp [fetch_stats, dedupFirst, hrow]

/-- Claim C9: the Melbourne conversion is an order-preserving transform
that keeps every row and every pre-existing column unchanged, formats
each parsed kickoff after subtracting exactly one hour (3600 seconds),
and leaves the formatted time missing when the kickoff is unparsable. -/
theorem C9_melbourne (parse : String → Option ℤ) (fmt : ℤ → String) (rows : List Fixture) :
    (convert_to_melbourne_time parse fmt rows).map FixtureM.base = rows
  ∧ ∀ fm ∈ convert_to_melbourne_time parse fmt rows,
      fm.kickoff_formatted = (fm.base.kickoff.bind parse).map (fun t => fmt (t - 3600))
      ∧ (fm.base.kickoff.bind parse = none → fm.kickoff_formatted = none) := by
  constructor
  · unfold convert_to_melbourne_time
    rw [List.map_map]
    exact (List.map_congr_left fun r _ => rfl).trans (List.map_id rows)
  · intro fm hfm
    obtain ⟨r, hr, rfl⟩ := List.mem_map.1 hfm
    refine ⟨?_, ?_⟩
    · show ((r.kickoff.bind parse).map (fun t => t - 3600)).map fmt
        = (r.kickoff.bind parse).map (fun t => fmt (t - 3600))
      rw [Option.map_map]
      rfl
    · intro h
      show (((r.kickoff.bind parse).map (fun t => t - 3600)).map fmt) = none
      rw [h]
      rfl

/-- Witness for C9 at concrete inputs. -/
theorem C9_melbourne_witness :
    (convert_to_melbourne_time exParse exFmt [exFixtureK]).map FixtureM.base = [exFixtureK]
  ∧ ∀ fm ∈ convert_to_melbourne_time exParse exFmt [exFixtureK],
      fm.kickoff_formatted = (fm.base.kickoff.bind exParse).map (fun t => exFmt (t - 3600))
      ∧ (fm.base.kickoff.bind exParse = none → fm.kickoff_formatted = none) :=
  C9_melbourne exParse exFmt [exFixtureK]

/-- Witness for C2 (amended) at a concrete input. -/
theorem C2_amended_witness :
    build_schedule_with_metrics [] [exFixtureK] false
      = if ([exFixtureK] : List Fixture).isEmpty then .ok []
        else .error "KeyError: team_norm" :=
  C2_amended [exFixtureK] false

/-- Witness for C4 at a concrete input. -/
theorem C4_sort_witness :
    (fetch_matches_post exParse exItems).Perm (exItems.map mkFixtureRow)
    ∧ List.Sorted (fixLE exParse) (fetch_matches_post exParse exItems) :=
  C4_sort.1 exParse exItems
